import Mathlib

/-!
Verification of the in-memory CRUD REST API in `src/server.ts`.

The server keeps two mutable arrays (`users`, `products`) and exposes CRUD
routes over them with a centralized error renderer.  We embed the route
handlers as pure state-passing functions: each handler takes the current
collection and returns the new collection together with either a success
payload or an `AppError` (message + statusCode), mirroring
`next(new AppError(msg, code))` in the source.  A `dispatch` function models
the express routing table, the `app.use` catch-all 404 and the
terminal error-rendering middleware.

Modelling conventions, noted once here:
* JS numbers are modelled as `Int`.  `NaN` (reachable in the source only by
  coercing a malformed numeric string) is not modelled: `jsToNumber` sends a
  string to `String.toInt?` with default 0.  This agrees with JS on every
  input any claim touches, including the empty string, since JS has
  `Number ("") = 0`.
* `Date` values (`createdAt`, timestamps) are modelled as a `Nat` clock value
  passed in by the caller.
* A JSON body field that may be absent is an `Option`; `none` is JS
  `undefined`.  For fields the source reads with a truthiness test, the JS
  falsy string `""` and falsy number `0` are handled explicitly by the
  `truthy` functions below.
* The development-mode stack trace appended by the error renderer is modelled
  as a `Bool` field recording whether a `stack` key is present in the body;
  the trace text itself is irrelevant to every property considered.
-/

namespace Server

/-- A JS value as it can arrive in a JSON body for the numeric fields
(`price`, `stock`): absent (`undefined`), a string, or a number. -/
inductive JSVal : Type where
  | undef : JSVal
  | str : String → JSVal
  | num : Int → JSVal
deriving DecidableEq

/-- JS truthiness of a `JSVal`: `undefined`, `""` and `0` are falsy. -/
def JSVal.truthy : JSVal → Bool
  | .undef => false
  | .str s => s != ""
  | .num n => n != 0

/-- Parses a run of decimal digits with accumulator; `none` when a
non-digit is hit. -/
def parseDecAux (cs : List Char) (acc : Nat) : Option Nat :=
  match cs with
  | [] => some acc
  | c :: rest => if c.isDigit then parseDecAux rest (acc * 10 + (c.toNat - Char.toNat '0')) else none

/-- Decimal reading of a string, as JS `Number(s)` does on integral strings,
with `Number ("") = 0`; a malformed string gives `NaN` in JS, not modelled
(see file header), so it is sent to 0 here. -/
def strToNumber (s : String) : Int :=
  match s.data with
  | [] => 0
  | c :: rest =>
    if c = '-' then
      match rest, parseDecAux rest 0 with
      | _ :: _, some n => -(n : Int)
      | _, _ => 0
    else
      match parseDecAux (c :: rest) 0 with
      | some n => (n : Int)
      | none => 0

/-- JS `Number(v)` coercion of a body value. -/
def jsToNumber : JSVal → Int
  | .undef => 0
  | .str s => strToNumber s
  | .num n => n

/-- JS truthiness of an optional string field (`undefined` and `""` falsy). -/
def strTruthy : Option String → Bool
  | none => false
  | some s => s != ""

/-- Models the JS idiom `v || dflt` for an optional string `v`. -/
def strOr (v : Option String) (dflt : String) : String :=
  match v with
  | none => dflt
  | some s => if s == "" then dflt else s

/-- JS `s.toLowerCase()`, character-wise lowering of the string (ASCII
suffices for every category in the system). -/
def jsToLower (s : String) : String := ⟨s.data.map Char.toLower⟩

/-- interface User (src/server.ts lines 8-13); `createdAt : Date` modelled as
a `Nat` clock value. -/
structure User : Type where
  id : String
  name : String
  email : String
  createdAt : Nat
deriving DecidableEq

/-- interface Product (src/server.ts lines 15-21). -/
structure Product : Type where
  id : String
  name : String
  price : Int
  category : String
  stock : Int
deriving DecidableEq

/-- class AppError (src/server.ts lines 52-60): message plus statusCode. -/
structure AppError : Type where
  message : String
  statusCode : Nat
deriving DecidableEq

/-- The seeded `users` array (src/server.ts lines 30-33); the two startup
`new Date()` values are modelled as clock value 0. -/
def seedUsers : List User :=
  [ { id := "1", name := "John Doe", email := "john@example.com", createdAt := 0 },
    { id := "2", name := "Jane Smith", email := "jane@example.com", createdAt := 0 } ]

/-- The seeded `products` array (src/server.ts lines 35-39). -/
def seedProducts : List Product :=
  [ { id := "1", name := "Laptop", price := 3500, category := "Electronics", stock := 10 },
    { id := "2", name := "Gaming Mouse", price := 150, category := "Peripherals", stock := 50 },
    { id := "3", name := "Mechanical Keyboard", price := 400, category := "Peripherals", stock := 30 } ]

/-- A parsed JSON request body, restricted to the five keys any handler
reads.  String-typed fields are optional strings; the numeric fields
`price` and `stock` are `JSVal` so that string-encoded numbers and the
falsy values `0` and `""` are representable. -/
structure Body : Type where
  name : Option String := none
  email : Option String := none
  price : JSVal := .undef
  category : Option String := none
  stock : JSVal := .undef
deriving DecidableEq

/-- The query parameters read by `GET /api/products` (src/server.ts line
154), kept as raw strings as express delivers them. -/
structure ProductQuery : Type where
  category : Option String := none
  minPrice : Option String := none
  maxPrice : Option String := none
deriving DecidableEq

-- ========== USER HANDLERS ==========

/-- Handler of `GET /api/users/:id` (src/server.ts lines 74-85). -/
def getUserById (users : List User) (id : String) : Except AppError User :=
  match users.find? (fun u => u.id == id) with
  | none => .error ⟨"User not found", 404⟩
  | some u => .ok u

/-- Handler of `POST /api/users` (src/server.ts lines 88-109): validation by
truthiness of `name` and `email`, id assignment `String(users.length + 1)`,
`createdAt` stamped with the current clock, push, return. -/
def createUser (users : List User) (b : Body) (now : Nat) :
    List User × Except AppError User :=
  if !(strTruthy b.name) || !(strTruthy b.email) then
    (users, .error ⟨"Name and email are required", 400⟩)
  else
    let newUser : User :=
      { id := toString (users.length + 1), name := b.name.getD "",
        email := b.email.getD "", createdAt := now }
    (users ++ [newUser], .ok newUser)

/-- Handler of `PUT /api/users/:id` (src/server.ts lines 112-132): findIndex,
404 when absent, else replace the element at that index with the merge
`name || old.name`, `email || old.email` (id and createdAt spread through). -/
def updateUser (users : List User) (id : String) (b : Body) :
    List User × Except AppError User :=
  match users.findIdx? (fun u => u.id == id) with
  | none => (users, .error ⟨"User not found", 404⟩)
  | some i =>
    match users.get? i with
    | none => (users, .error ⟨"User not found", 404⟩)
    | some u =>
      let u2 : User := { u with name := strOr b.name u.name, email := strOr b.email u.email }
      (users.set i u2, .ok u2)

/-- Handler of `DELETE /api/users/:id` (src/server.ts lines 135-148):
findIndex, 404 when absent, else splice out that index. -/
def deleteUser (users : List User) (id : String) :
    List User × Except AppError Unit :=
  match users.findIdx? (fun u => u.id == id) with
  | none => (users, .error ⟨"User not found", 404⟩)
  | some i => (users.eraseIdx i, .ok ())

-- ========== PRODUCT HANDLERS ==========

/-- The filter of `GET /api/products` (src/server.ts lines 153-177): three
sequential conditional filters, each skipped when its query parameter is
falsy; category compared case-insensitively, price bounds via `Number`. -/
def listProducts (ps : List Product) (q : ProductQuery) : List Product :=
  let f1 := if strTruthy q.category then
      ps.filter (fun p => jsToLower p.category == jsToLower (q.category.getD ""))
    else ps
  let f2 := if strTruthy q.minPrice then
      f1.filter (fun p => decide (strToNumber (q.minPrice.getD "") ≤ p.price))
    else f1
  if strTruthy q.maxPrice then
    f2.filter (fun p => decide (p.price ≤ strToNumber (q.maxPrice.getD "")))
  else f2

/-- Handler of `GET /api/products/:id` (src/server.ts lines 180-191). -/
def getProductById (ps : List Product) (id : String) : Except AppError Product :=
  match ps.find? (fun p => p.id == id) with
  | none => .error ⟨"Product not found", 404⟩
  | some p => .ok p

/-- Handler of `POST /api/products` (src/server.ts lines 194-216): the check
is `!name || !price || !category || stock === undefined` — truthiness for
`name`, `price`, `category`, but an is-undefined test for `stock`. -/
def createProduct (ps : List Product) (b : Body) :
    List Product × Except AppError Product :=
  if !(strTruthy b.name) || !(b.price.truthy) || !(strTruthy b.category)
      || decide (b.stock = JSVal.undef) then
    (ps, .error ⟨"All fields are required", 400⟩)
  else
    let p : Product :=
      { id := toString (ps.length + 1), name := b.name.getD "",
        price := jsToNumber b.price, category := b.category.getD "",
        stock := jsToNumber b.stock }
    (ps ++ [p], .ok p)

/-- Handler of `PUT /api/products/:id` (src/server.ts lines 219-241):
truthiness merge for `name` and `category`, but `!== undefined` tests for
`price` and `stock` (so 0 is a valid override value for those). -/
def updateProduct (ps : List Product) (id : String) (b : Body) :
    List Product × Except AppError Product :=
  match ps.findIdx? (fun p => p.id == id) with
  | none => (ps, .error ⟨"Product not found", 404⟩)
  | some i =>
    match ps.get? i with
    | none => (ps, .error ⟨"Product not found", 404⟩)
    | some p =>
      let p2 : Product :=
        { p with
          name := strOr b.name p.name,
          price := if b.price = JSVal.undef then p.price else jsToNumber b.price,
          category := strOr b.category p.category,
          stock := if b.stock = JSVal.undef then p.stock else jsToNumber b.stock }
      (ps.set i p2, .ok p2)

/-- Handler of `DELETE /api/products/:id` (src/server.ts lines 244-257). -/
def deleteProduct (ps : List Product) (id : String) :
    List Product × Except AppError Unit :=
  match ps.findIdx? (fun p => p.id == id) with
  | none => (ps, .error ⟨"Product not found", 404⟩)
  | some i => (ps.eraseIdx i, .ok ())

-- ========== RESPONSE ENVELOPE, ERROR RENDERER, DISPATCH ==========

/-- The error value seen by the global error handler (src/server.ts lines
292-302).  Express passes it an arbitrary `Error`-like object, so `message`
and `statusCode` may each be absent; the source reads them with the falsy
defaults `err.statusCode || 500` and `err.message || 'Internal server
error'`, so the falsy values `0` and `""` also select the default. -/
structure ErrLike : Type where
  message : Option String := none
  statusCode : Option Nat := none
deriving DecidableEq

/-- View of an `AppError` as the error object reaching the global handler:
both fields are explicitly set by the constructor. -/
def AppError.toErrLike (a : AppError) : ErrLike :=
  { message := some a.message, statusCode := some a.statusCode }

/-- The JSON body emitted by the global error handler.  `stack` records
whether a stack key is present (development mode); its text is irrelevant. -/
structure ErrorEnvelope : Type where
  success : Bool
  error : String
  status : Nat
  stack : Bool
deriving DecidableEq

/-- The global error handler (src/server.ts lines 292-302): the single
terminal renderer.  Returns the HTTP status together with the body. -/
def renderError (dev : Bool) (e : ErrLike) : Nat × ErrorEnvelope :=
  let statusCode := match e.statusCode with
    | none => 500
    | some n => if n = 0 then 500 else n
  let message := match e.message with
    | none => "Internal server error"
    | some s => if s = "" then "Internal server error" else s
  (statusCode, { success := false, error := message, status := statusCode, stack := dev })

/-- Body of the catch-all 404 handler (src/server.ts lines 283-289):
`success`, `error` and the echoed request path — a shape distinct from
`ErrorEnvelope` (no `status` field), built without the error renderer. -/
structure NotFoundBody : Type where
  success : Bool
  error : String
  path : String
deriving DecidableEq

/-- HTTP method of a request. -/
inductive Method : Type where
  | get : Method
  | post : Method
  | put : Method
  | del : Method
deriving DecidableEq

/-- A parsed inbound request: method, raw path, parsed JSON body, parsed
query parameters. -/
structure Req : Type where
  method : Method
  path : String
  body : Body := {}
  query : ProductQuery := {}
deriving DecidableEq

/-- Every response the server can emit: per-route success envelopes
(mirroring the exact keys each `res.json` call passes), the catch-all 404,
and the rendered failure envelope.  The first `Nat` of each constructor is
the HTTP status. -/
inductive Resp : Type where
  | usersList (status : Nat) (count : Nat) (data : List User)
  | userOk (status : Nat) (message : Option String) (data : User)
  | productsList (status : Nat) (count : Nat) (data : List Product)
  | productOk (status : Nat) (message : Option String) (data : Product)
  | deleted (status : Nat) (message : String)
  | rootInfo (status : Nat)
  | healthOk (status : Nat) (uptime : Nat) (timestamp : Nat)
  | routeNotFound (status : Nat) (body : NotFoundBody)
  | failure (status : Nat) (body : ErrorEnvelope)
deriving DecidableEq

/-- Renders a handler failure through the terminal error renderer into a
response, as the express error-middleware chain does. -/
def failWith (dev : Bool) (e : AppError) : Resp :=
  let r := renderError dev e.toErrLike
  .failure r.1 r.2

/-- Splits a character list at every slash, dropping empty pieces. -/
def segsAux (cs : List Char) (cur : List Char) : List String :=
  match cs with
  | [] => if cur.isEmpty then [] else [⟨cur.reverse⟩]
  | c :: rest =>
    if c = '/' then
      if cur.isEmpty then segsAux rest [] else (⟨cur.reverse⟩ : String) :: segsAux rest []
    else segsAux rest (c :: cur)

/-- Splits an URL path into its non-empty segments, the route shape express
matches on (query string assumed already stripped by the parser). -/
def pathSegs (path : String) : List String :=
  segsAux path.data []

/-- The full routing table (src/server.ts lines 65-302): express tries the
registered routes in order and falls through to the `app.use` catch-all,
which echoes the requested path; handler failures go to the terminal
renderer.  Returns the response and the two collections after the request. -/
def dispatch (req : Req) (users : List User) (ps : List Product)
    (now : Nat) (uptime : Nat) (dev : Bool) :
    Resp × List User × List Product :=
  match req.method, pathSegs req.path with
  | .get, ["api", "users"] =>
    (.usersList 200 users.length users, users, ps)
  | .get, ["api", "users", id] =>
    match getUserById users id with
    | .ok u => (.userOk 200 none u, users, ps)
    | .error e => (failWith dev e, users, ps)
  | .post, ["api", "users"] =>
    match createUser users req.body now with
    | (us, .ok u) => (.userOk 201 (some "User created successfully") u, us, ps)
    | (us, .error e) => (failWith dev e, us, ps)
  | .put, ["api", "users", id] =>
    match updateUser users id req.body with
    | (us, .ok u) => (.userOk 200 (some "User updated successfully") u, us, ps)
    | (us, .error e) => (failWith dev e, us, ps)
  | .del, ["api", "users", id] =>
    match deleteUser users id with
    | (us, .ok _) => (.deleted 200 "User deleted successfully", us, ps)
    | (us, .error e) => (failWith dev e, us, ps)
  | .get, ["api", "products"] =>
    let f := listProducts ps req.query
    (.productsList 200 f.length f, users, ps)
  | .get, ["api", "products", id] =>
    match getProductById ps id with
    | .ok p => (.productOk 200 none p, users, ps)
    | .error e => (failWith dev e, users, ps)
  | .post, ["api", "products"] =>
    match createProduct ps req.body with
    | (ps2, .ok p) => (.productOk 201 (some "Product created successfully") p, users, ps2)
    | (ps2, .error e) => (failWith dev e, users, ps2)
  | .put, ["api", "products", id] =>
    match updateProduct ps id req.body with
    | (ps2, .ok p) => (.productOk 200 (some "Product updated successfully") p, users, ps2)
    | (ps2, .error e) => (failWith dev e, users, ps2)
  | .del, ["api", "products", id] =>
    match deleteProduct ps id with
    | (ps2, .ok _) => (.deleted 200 "Product deleted successfully", users, ps2)
    | (ps2, .error e) => (failWith dev e, users, ps2)
  | .get, [] => (.rootInfo 200, users, ps)
  | .get, ["health"] => (.healthOk 200 uptime now, users, ps)
  | _, _ =>
    (.routeNotFound 404 { success := false, error := "Route not found", path := req.path },
      users, ps)

-- ========== DECIMAL-REPRESENTATION FACTS ==========

/-- Fuel-free form of the digit list produced by `Nat.toDigits 10`. -/
def decRepr (n : Nat) : List Char :=
  if _h : n / 10 = 0 then [Nat.digitChar (n % 10)]
  else decRepr (n / 10) ++ [Nat.digitChar (n % 10)]
decreasing_by
  exact Nat.div_lt_self (Nat.pos_of_ne_zero (fun h0 => _h (by simp [h0]))) (by decide)

theorem decRepr_of_div_eq_zero {n : Nat} (h : n / 10 = 0) :
    decRepr n = [Nat.digitChar (n % 10)] := by
  rw [decRepr]
  simp [h]

theorem decRepr_of_div_ne_zero {n : Nat} (h : n / 10 ≠ 0) :
    decRepr n = decRepr (n / 10) ++ [Nat.digitChar (n % 10)] := by
  rw [decRepr]
  simp [h]

theorem toDigitsCore_eq_decRepr (f : Nat) : ∀ (n : Nat) (ds : List Char), n < f →
    Nat.toDigitsCore 10 f n ds = decRepr n ++ ds := by
  induction f with
  | zero => intro n ds h; exact absurd h (Nat.not_lt_zero n)
  | succ f ih =>
    intro n ds h
    by_cases h10 : n / 10 = 0
    · simp [Nat.toDigitsCore, h10, decRepr_of_div_eq_zero h10]
    · have hn : 0 < n := Nat.pos_of_ne_zero (fun h0 => h10 (by simp [h0]))
      have hlt : n / 10 < f := by
        have := Nat.div_lt_self hn (by decide : 1 < 10)
        omega
      simp only [Nat.toDigitsCore, h10, if_false]
      rw [ih (n / 10) _ hlt, decRepr_of_div_ne_zero h10]
      simp

theorem repr_eq_decRepr (n : Nat) : Nat.repr n = (decRepr n).asString := by
  show (Nat.toDigits 10 n).asString = (decRepr n).asString
  rw [Nat.toDigits, toDigitsCore_eq_decRepr (n + 1) n [] (Nat.lt_succ_self n)]
  simp

theorem decRepr_ne_nil (n : Nat) : decRepr n ≠ [] := by
  by_cases h10 : n / 10 = 0
  · simp [decRepr_of_div_eq_zero h10]
  · simp [decRepr_of_div_ne_zero h10]

theorem digitChar_inj_lt10 :
    ∀ a, a < 10 → ∀ b, b < 10 → Nat.digitChar a = Nat.digitChar b → a = b := by decide

theorem decRepr_inj : ∀ (m n : Nat), decRepr m = decRepr n → m = n := by
  intro m
  induction m using Nat.strong_induction_on with
  | _ m ih =>
    intro n h
    by_cases hm : m / 10 = 0 <;> by_cases hn : n / 10 = 0
    · rw [decRepr_of_div_eq_zero hm, decRepr_of_div_eq_zero hn] at h
      have hd : Nat.digitChar (m % 10) = Nat.digitChar (n % 10) := by
        simpa using h
      have hmod : m % 10 = n % 10 :=
        digitChar_inj_lt10 _ (Nat.mod_lt _ (by decide)) _ (Nat.mod_lt _ (by decide)) hd
      omega
    · exfalso
      rw [decRepr_of_div_eq_zero hm, decRepr_of_div_ne_zero hn] at h
      have hlen := congrArg List.length h
      simp [List.length_append] at hlen
      exact decRepr_ne_nil (n / 10) hlen
    · exfalso
      rw [decRepr_of_div_ne_zero hm, decRepr_of_div_eq_zero hn] at h
      have hlen := congrArg List.length h
      simp [List.length_append] at hlen
      exact decRepr_ne_nil (m / 10) hlen
    · rw [decRepr_of_div_ne_zero hm, decRepr_of_div_ne_zero hn] at h
      have hparts := List.append_inj' h (by simp)
      have hq : m / 10 = n / 10 := by
        apply ih (m / 10) _ _ hparts.1
        exact Nat.div_lt_self (Nat.pos_of_ne_zero (fun h0 => hm (by simp [h0]))) (by decide)
      have hd : Nat.digitChar (m % 10) = Nat.digitChar (n % 10) := by
        have h2 := hparts.2
        simpa using h2
      have hmod : m % 10 = n % 10 :=
        digitChar_inj_lt10 _ (Nat.mod_lt _ (by decide)) _ (Nat.mod_lt _ (by decide)) hd
      omega

theorem natToString_inj {m n : Nat} (h : toString m = toString n) : m = n := by
  have h2 : Nat.repr m = Nat.repr n := h
  rw [repr_eq_decRepr, repr_eq_decRepr] at h2
  apply decRepr_inj
  have := congrArg String.data h2
  simpa [List.asString] using this

-- ========== GENERIC LIST HELPERS ==========

theorem find?_eraseIdx_of_nodup_keys {α : Type} (key : α → String) (id : String) :
    ∀ (l : List α) (i : Nat), (l.map key).Nodup →
      l.findIdx? (fun x => key x == id) = some i →
      (l.eraseIdx i).find? (fun x => key x == id) = none := by
  intro l
  induction l with
  | nil => intro i _ hfi; simp at hfi
  | cons x xs ih =>
    intro i hnd hfi
    rw [List.findIdx?_cons] at hfi
    by_cases hx : key x == id
    · simp only [hx, if_pos] at hfi
      obtain rfl : (0 : Nat) = i := Option.some.inj hfi
      simp only [List.eraseIdx_cons_zero]
      rw [List.find?_eq_none]
      intro y hy hky
      have hxid : key x = id := by simpa using hx
      have hkyid : key y = id := by simpa using hky
      have : key x ∈ xs.map key := by
        rw [hxid, ← hkyid]; exact List.mem_map_of_mem key hy
      exact (List.nodup_cons.mp (by simpa using hnd)).1 this
    · simp only [hx, if_neg, Bool.false_eq_true, not_false_iff] at hfi
      rw [List.findIdx?_succ] at hfi
      obtain ⟨j, hj, rfl⟩ := Option.map_eq_some'.mp hfi
      simp only [List.eraseIdx_cons_succ]
      rw [List.find?_cons_of_neg _ (by simpa using hx)]
      exact ih j (List.nodup_cons.mp (by simpa using hnd)).2 hj

theorem find?_append_right_of_fresh {α : Type} (p : α → Bool) (l : List α) (a : α)
    (hl : ∀ x ∈ l, p x = false) (ha : p a = true) :
    (l ++ [a]).find? p = some a := by
  rw [List.find?_append]
  have h1 : l.find? p = none := List.find?_eq_none.mpr (by intro x hx; simp [hl x hx])
  rw [h1]
  simp [List.find?, ha]

-- ========== CLAIM C1 ==========

/-- C1 counterexample: in the reachable store in which user "1" has been
deleted from the seed, a create is assigned the already-used id "2" (the
collection length is 1), and `GetByID ("2")` then returns the seeded Jane
Smith — not the entity the create returned.  So the claimed round trip
fails on a state reached by interleaving a delete and a create. -/
theorem c1_counterexample :
    (deleteUser seedUsers "1").2 = .ok () ∧
    (createUser (deleteUser seedUsers "1").1
        { name := some "A", email := some "a@x.com" } 7).2
      = .ok { id := "2", name := "A", email := "a@x.com", createdAt := 7 } ∧
    getUserById (createUser (deleteUser seedUsers "1").1
        { name := some "A", email := some "a@x.com" } 7).1 "2"
      = .ok { id := "2", name := "Jane Smith", email := "jane@example.com", createdAt := 0 } ∧
    ({ id := "2", name := "Jane Smith", email := "jane@example.com", createdAt := 0 } : User)
      ≠ { id := "2", name := "A", email := "a@x.com", createdAt := 7 } :=
  ⟨rfl, rfl, rfl, by decide⟩

/-- C1 (amended): in every store state whose ids have not been made to
collide by the length-based scheme — for the create half, the id the scheme
assigns is not already present; for the delete half, the stored ids are
pairwise distinct — the claimed round trips hold, for both collections:
GetByID after a successful Create returns exactly the created entity, and
GetByID after a successful Delete fails with the 404 NotFound error. -/
theorem c1_create_get_delete_roundtrip :
    (∀ (users : List User) (b : Body) (now : Nat) (us2 : List User) (u : User),
      toString (users.length + 1) ∉ users.map User.id →
      createUser users b now = (us2, .ok u) →
      getUserById us2 u.id = .ok u) ∧
    (∀ (users : List User) (id : String) (us2 : List User),
      (users.map User.id).Nodup →
      deleteUser users id = (us2, .ok ()) →
      getUserById us2 id = .error ⟨"User not found", 404⟩) ∧
    (∀ (ps : List Product) (b : Body) (ps2 : List Product) (p : Product),
      toString (ps.length + 1) ∉ ps.map Product.id →
      createProduct ps b = (ps2, .ok p) →
      getProductById ps2 p.id = .ok p) ∧
    (∀ (ps : List Product) (id : String) (ps2 : List Product),
      (ps.map Product.id).Nodup →
      deleteProduct ps id = (ps2, .ok ()) →
      getProductById ps2 id = .error ⟨"Product not found", 404⟩) := by
  refine ⟨?_, ?_, ?_, ?_⟩
  · intro users b now us2 u hfresh h
    simp only [createUser] at h
    split at h
    · simp at h
    · rw [Prod.mk.injEq] at h
      obtain ⟨h1, h2⟩ := h
      obtain rfl := Except.ok.inj h2
      subst h1
      have hfrx : ∀ x ∈ users, (x.id == (toString (users.length + 1) : String)) = false := by
        intro x hx
        rw [beq_eq_false_iff_ne]
        intro hxe
        exact hfresh (hxe ▸ List.mem_map_of_mem User.id hx)
      unfold getUserById
      rw [find?_append_right_of_fresh _ _ _ hfrx (by simp)]
  · intro users id us2 hnd h
    unfold deleteUser at h
    split at h
    · simp at h
    · rename_i i hfi
      rw [Prod.mk.injEq] at h
      obtain ⟨h1, _⟩ := h
      subst h1
      unfold getUserById
      rw [find?_eraseIdx_of_nodup_keys User.id id users i hnd hfi]
  · intro ps b ps2 p hfresh h
    simp only [createProduct] at h
    split at h
    · simp at h
    · rw [Prod.mk.injEq] at h
      obtain ⟨h1, h2⟩ := h
      obtain rfl := Except.ok.inj h2
      subst h1
      have hfrx : ∀ x ∈ ps, (x.id == (toString (ps.length + 1) : String)) = false := by
        intro x hx
        rw [beq_eq_false_iff_ne]
        intro hxe
        exact hfresh (hxe ▸ List.mem_map_of_mem Product.id hx)
      unfold getProductById
      rw [find?_append_right_of_fresh _ _ _ hfrx (by simp)]
  · intro ps id ps2 hnd h
    unfold deleteProduct at h
    split at h
    · simp at h
    · rename_i i hfi
      rw [Prod.mk.injEq] at h
      obtain ⟨h1, _⟩ := h
      subst h1
      unfold getProductById
      rw [find?_eraseIdx_of_nodup_keys Product.id id ps i hnd hfi]

/-- C1 amended-claim witness: on the seed stores, a create is assigned the
fresh id and is then found by GetByID, and after deleting id "1" GetByID
of "1" fails with 404. -/
theorem c1_witness :
    getUserById (seedUsers ++ [{ id := "3", name := "A", email := "a@x.com", createdAt := 7 }]) "3"
      = .ok { id := "3", name := "A", email := "a@x.com", createdAt := 7 } ∧
    getUserById (deleteUser seedUsers "1").1 "1" = .error ⟨"User not found", 404⟩ ∧
    getProductById
        (seedProducts ++ [{ id := "4", name := "X", price := 5, category := "C", stock := 1 }]) "4"
      = .ok { id := "4", name := "X", price := 5, category := "C", stock := 1 } ∧
    getProductById (deleteProduct seedProducts "1").1 "1"
      = .error ⟨"Product not found", 404⟩ :=
  ⟨c1_create_get_delete_roundtrip.1 seedUsers
      { name := some "A", email := some "a@x.com" } 7 _ _ (by decide) rfl,
   c1_create_get_delete_roundtrip.2.1 seedUsers "1" _ (by decide) rfl,
   c1_create_get_delete_roundtrip.2.2.1 seedProducts
      { name := some "X", price := .num 5, category := some "C", stock := .num 1 } _ _
      (by decide) rfl,
   c1_create_get_delete_roundtrip.2.2.2 seedProducts "1" _ (by decide) rfl⟩

-- ========== CLAIM C2 ==========

theorem createUser_ok_inv {users : List User} {b : Body} {now : Nat}
    {us2 : List User} {u : User} (h : createUser users b now = (us2, .ok u)) :
    u = { id := toString (users.length + 1), name := b.name.getD "",
          email := b.email.getD "", createdAt := now } ∧ us2 = users ++ [u] := by
  simp only [createUser] at h
  split at h
  · simp at h
  · rw [Prod.mk.injEq] at h
    obtain ⟨h1, h2⟩ := h
    obtain rfl := Except.ok.inj h2
    exact ⟨rfl, h1.symm⟩

theorem createProduct_ok_inv {ps : List Product} {b : Body}
    {ps2 : List Product} {p : Product} (h : createProduct ps b = (ps2, .ok p)) :
    p = { id := toString (ps.length + 1), name := b.name.getD "",
          price := jsToNumber b.price, category := b.category.getD "",
          stock := jsToNumber b.stock } ∧ ps2 = ps ++ [p] := by
  simp only [createProduct] at h
  split at h
  · simp at h
  · rw [Prod.mk.injEq] at h
    obtain ⟨h1, h2⟩ := h
    obtain rfl := Except.ok.inj h2
    exact ⟨rfl, h1.symm⟩

theorem toString_succ_not_mem_range_map (len : Nat) :
    toString (len + 1) ∉ (List.range len).map (fun k => toString (k + 1)) := by
  intro hmem
  rw [List.mem_map] at hmem
  obtain ⟨k, hk, he⟩ := hmem
  have := natToString_inj he
  rw [List.mem_range] at hk
  omega

/-- C2: a successful Create assigns id `String (length + 1)`, appends the
entity and returns it, stamping `createdAt` for users; when the store's ids
are still the uncollided length-based layout (id at position k is
`String (k+1)`, the layout every delete-free history produces), the
assigned id is fresh and the layout is preserved; and the id of an
immediately subsequent create differs, so the id is not reused unless a
delete first shrank the collection. -/
theorem c2_create_id_assignment :
    (∀ (users : List User) (b : Body) (now : Nat) (us2 : List User) (u : User),
      createUser users b now = (us2, .ok u) →
      u.id = toString (users.length + 1) ∧ us2 = users ++ [u] ∧ u.createdAt = now) ∧
    (∀ (users : List User) (b : Body) (now : Nat) (us2 : List User) (u : User),
      users.map User.id = (List.range users.length).map (fun k => toString (k + 1)) →
      createUser users b now = (us2, .ok u) →
      u.id ∉ users.map User.id ∧
      us2.map User.id = (List.range us2.length).map (fun k => toString (k + 1))) ∧
    (∀ (users : List User) (b : Body) (now : Nat) (us2 : List User) (u : User)
       (b2 : Body) (now2 : Nat) (us3 : List User) (u2 : User),
      createUser users b now = (us2, .ok u) →
      createUser us2 b2 now2 = (us3, .ok u2) →
      u2.id ≠ u.id) ∧
    (∀ (ps : List Product) (b : Body) (ps2 : List Product) (p : Product),
      createProduct ps b = (ps2, .ok p) →
      p.id = toString (ps.length + 1) ∧ ps2 = ps ++ [p]) ∧
    (∀ (ps : List Product) (b : Body) (ps2 : List Product) (p : Product),
      ps.map Product.id = (List.range ps.length).map (fun k => toString (k + 1)) →
      createProduct ps b = (ps2, .ok p) →
      p.id ∉ ps.map Product.id ∧
      ps2.map Product.id = (List.range ps2.length).map (fun k => toString (k + 1))) ∧
    (∀ (ps : List Product) (b : Body) (ps2 : List Product) (p : Product)
       (b2 : Body) (ps3 : List Product) (p2 : Product),
      createProduct ps b = (ps2, .ok p) →
      createProduct ps2 b2 = (ps3, .ok p2) →
      p2.id ≠ p.id) := by
  refine ⟨?_, ?_, ?_, ?_, ?_, ?_⟩
  · intro users b now us2 u h
    obtain ⟨rfl, rfl⟩ := createUser_ok_inv h
    exact ⟨rfl, rfl, rfl⟩
  · intro users b now us2 u hcan h
    obtain ⟨rfl, rfl⟩ := createUser_ok_inv h
    constructor
    · rw [hcan]
      exact toString_succ_not_mem_range_map users.length
    · rw [List.map_append, hcan]
      simp only [List.map_cons, List.map_nil, List.length_append, List.length_cons,
        List.length_nil]
      rw [List.range_succ, List.map_append]
      simp
  · intro users b now us2 u b2 now2 us3 u2 h1 h2
    obtain ⟨rfl, rfl⟩ := createUser_ok_inv h1
    obtain ⟨rfl, rfl⟩ := createUser_ok_inv h2
    intro he
    have := natToString_inj he
    simp [List.length_append] at this
  · intro ps b ps2 p h
    obtain ⟨rfl, rfl⟩ := createProduct_ok_inv h
    exact ⟨rfl, rfl⟩
  · intro ps b ps2 p hcan h
    obtain ⟨rfl, rfl⟩ := createProduct_ok_inv h
    constructor
    · rw [hcan]
      exact toString_succ_not_mem_range_map ps.length
    · rw [List.map_append, hcan]
      simp only [List.map_cons, List.map_nil, List.length_append, List.length_cons,
        List.length_nil]
      rw [List.range_succ, List.map_append]
      simp
  · intro ps b ps2 p b2 ps3 p2 h1 h2
    obtain ⟨rfl, rfl⟩ := createProduct_ok_inv h1
    obtain ⟨rfl, rfl⟩ := createProduct_ok_inv h2
    intro he
    have := natToString_inj he
    simp [List.length_append] at this

/-- C2 witness: concrete instances of each conjunct on the seed stores. -/
theorem c2_witness :
    ({ id := "3", name := "A", email := "a@x.com", createdAt := 7 } : User).id
        = toString (seedUsers.length + 1) ∧
    ({ id := "3", name := "A", email := "a@x.com", createdAt := 7 } : User).id
        ∉ seedUsers.map User.id ∧
    ({ id := "4", name := "B", email := "b@x.com", createdAt := 9 } : User).id
        ≠ ({ id := "3", name := "A", email := "a@x.com", createdAt := 7 } : User).id ∧
    ({ id := "4", name := "X", price := 5, category := "C", stock := 1 } : Product).id
        = toString (seedProducts.length + 1) :=
  have hb : createUser seedUsers { name := some "A", email := some "a@x.com" } 7
      = (seedUsers ++ [{ id := "3", name := "A", email := "a@x.com", createdAt := 7 }],
         .ok { id := "3", name := "A", email := "a@x.com", createdAt := 7 }) := rfl
  have hb2 : createUser
      (seedUsers ++ [{ id := "3", name := "A", email := "a@x.com", createdAt := 7 }])
      { name := some "B", email := some "b@x.com" } 9
      = (seedUsers ++ [{ id := "3", name := "A", email := "a@x.com", createdAt := 7 },
          { id := "4", name := "B", email := "b@x.com", createdAt := 9 }],
         .ok { id := "4", name := "B", email := "b@x.com", createdAt := 9 }) := rfl
  have hp : createProduct seedProducts
      { name := some "X", price := .num 5, category := some "C", stock := .num 1 }
      = (seedProducts ++ [{ id := "4", name := "X", price := 5, category := "C", stock := 1 }],
         .ok { id := "4", name := "X", price := 5, category := "C", stock := 1 }) := rfl
  ⟨(c2_create_id_assignment.1 _ _ _ _ _ hb).1,
   (c2_create_id_assignment.2.1 _ _ _ _ _ (by decide) hb).1,
   c2_create_id_assignment.2.2.1 _ _ _ _ _ _ _ _ _ hb hb2,
   (c2_create_id_assignment.2.2.2.1 _ _ _ _ hp).1⟩

-- ========== CLAIM C3 ==========

theorem updateUser_found {users : List User} {id : String} {b : Body} {i : Nat} {u : User}
    (hfi : users.findIdx? (fun x => x.id == id) = some i) (hg : users.get? i = some u) :
    updateUser users id b =
      (users.set i { u with name := strOr b.name u.name, email := strOr b.email u.email },
       .ok { u with name := strOr b.name u.name, email := strOr b.email u.email }) := by
  unfold updateUser
  simp only [hfi, hg]

theorem updateProduct_found {ps : List Product} {id : String} {b : Body} {i : Nat}
    {p : Product}
    (hfi : ps.findIdx? (fun x => x.id == id) = some i) (hg : ps.get? i = some p) :
    updateProduct ps id b =
      (ps.set i
        { p with
          name := strOr b.name p.name,
          price := if b.price = JSVal.undef then p.price else jsToNumber b.price,
          category := strOr b.category p.category,
          stock := if b.stock = JSVal.undef then p.stock else jsToNumber b.stock },
       .ok
        { p with
          name := strOr b.name p.name,
          price := if b.price = JSVal.undef then p.price else jsToNumber b.price,
          category := strOr b.category p.category,
          stock := if b.stock = JSVal.undef then p.stock else jsToNumber b.stock }) := by
  unfold updateProduct
  simp only [hfi, hg]

/-- C3: on an existing entity, Update replaces exactly the fields its own
presence check accepts — truthiness for the string fields, a literal
is-undefined test for the numeric fields `price` and `stock`, so the number
zero is a valid override there — keeps every omitted field equal to its
pre-update value, replaces only the found index, and leaves every other
position of the collection untouched. -/
theorem c3_update_shallow_merge :
    (∀ (users : List User) (id : String) (b : Body) (i : Nat) (u : User),
      users.findIdx? (fun x => x.id == id) = some i → users.get? i = some u →
      ∃ u2 : User, updateUser users id b = (users.set i u2, .ok u2) ∧
        u2.id = u.id ∧ u2.createdAt = u.createdAt ∧
        (∀ v, b.name = some v → v ≠ "" → u2.name = v) ∧
        (b.name = none → u2.name = u.name) ∧
        (∀ v, b.email = some v → v ≠ "" → u2.email = v) ∧
        (b.email = none → u2.email = u.email) ∧
        (∀ j, j ≠ i → (users.set i u2).get? j = users.get? j) ∧
        (users.set i u2).length = users.length) ∧
    (∀ (ps : List Product) (id : String) (b : Body) (i : Nat) (p : Product),
      ps.findIdx? (fun x => x.id == id) = some i → ps.get? i = some p →
      ∃ p2 : Product, updateProduct ps id b = (ps.set i p2, .ok p2) ∧
        p2.id = p.id ∧
        (∀ v, b.name = some v → v ≠ "" → p2.name = v) ∧
        (b.name = none → p2.name = p.name) ∧
        (b.price ≠ JSVal.undef → p2.price = jsToNumber b.price) ∧
        (b.price = JSVal.undef → p2.price = p.price) ∧
        (∀ v, b.category = some v → v ≠ "" → p2.category = v) ∧
        (b.category = none → p2.category = p.category) ∧
        (b.stock ≠ JSVal.undef → p2.stock = jsToNumber b.stock) ∧
        (b.stock = JSVal.undef → p2.stock = p.stock) ∧
        (∀ j, j ≠ i → (ps.set i p2).get? j = ps.get? j) ∧
        (ps.set i p2).length = ps.length) := by
  constructor
  · intro users id b i u hfi hg
    refine ⟨_, updateUser_found hfi hg, rfl, rfl, ?_, ?_, ?_, ?_, ?_, by simp⟩
    · intro v hv hne
      simp [strOr, hv, hne]
    · intro hv; simp [strOr, hv]
    · intro v hv hne
      simp [strOr, hv, hne]
    · intro hv; simp [strOr, hv]
    · intro j hj
      rw [List.get?_eq_getElem?, List.get?_eq_getElem?]
      exact List.getElem?_set_ne (fun he => hj he.symm)
  · intro ps id b i p hfi hg
    refine ⟨_, updateProduct_found hfi hg, rfl, ?_, ?_, ?_, ?_, ?_, ?_, ?_, ?_, ?_, by simp⟩
    · intro v hv hne
      simp [strOr, hv, hne]
    · intro hv; simp [strOr, hv]
    · intro hv; simp [hv]
    · intro hv; simp [hv]
    · intro v hv hne
      simp [strOr, hv, hne]
    · intro hv; simp [strOr, hv]
    · intro hv; simp [hv]
    · intro hv; simp [hv]
    · intro j hj
      rw [List.get?_eq_getElem?, List.get?_eq_getElem?]
      exact List.getElem?_set_ne (fun he => hj he.symm)

/-- C3 witness: the spec scenario `PUT /api/products/1` with price 3200
against the seeded products, and a name-only user update, instantiating the
merge theorem concretely. -/
theorem c3_witness :
    (∃ u2 : User, updateUser seedUsers "1" { name := some "N" } = (seedUsers.set 0 u2, .ok u2) ∧
      u2.id = ({ id := "1", name := "John Doe", email := "john@example.com", createdAt := 0 } : User).id ∧
      u2.createdAt = 0 ∧
      (∀ v, (some "N" : Option String) = some v → v ≠ "" → u2.name = v) ∧
      ((some "N" : Option String) = none → u2.name = "John Doe") ∧
      (∀ v, (none : Option String) = some v → v ≠ "" → u2.email = v) ∧
      ((none : Option String) = none → u2.email = "john@example.com") ∧
      (∀ j, j ≠ 0 → (seedUsers.set 0 u2).get? j = seedUsers.get? j) ∧
      (seedUsers.set 0 u2).length = seedUsers.length) ∧
    (∃ p2 : Product, updateProduct seedProducts "1" { price := .num 3200 }
        = (seedProducts.set 0 p2, .ok p2) ∧
      p2.id = "1" ∧
      ((JSVal.num 3200 : JSVal) ≠ JSVal.undef → p2.price = jsToNumber (.num 3200)) ∧
      ((JSVal.num 3200 : JSVal) = JSVal.undef → p2.price = 3500) ∧
      ((none : Option String) = none → p2.category = "Electronics") ∧
      ((JSVal.undef : JSVal) = JSVal.undef → p2.stock = 10)) := by
  constructor
  · have h := c3_update_shallow_merge.1 seedUsers "1" { name := some "N" } 0
      { id := "1", name := "John Doe", email := "john@example.com", createdAt := 0 }
      (by decide) rfl
    exact h
  · obtain ⟨p2, h1, h2, _, _, h5, h6, _, h8, _, h10, _, _⟩ :=
      c3_update_shallow_merge.2 seedProducts "1" { price := .num 3200 } 0
        { id := "1", name := "Laptop", price := 3500, category := "Electronics", stock := 10 }
        (by decide) rfl
    exact ⟨p2, h1, h2, h5, h6, h8, h10⟩

-- ========== CLAIM C4 ==========

/-- C4: when a required field is absent (`undefined`), Create answers the
fixed 400 ValidationError of its collection and returns the collection
unchanged — nothing appended and, the id scheme being a function of the
length alone, no id consumed. -/
theorem c4_create_missing_field_rejected :
    (∀ (users : List User) (b : Body) (now : Nat),
      b.name = none ∨ b.email = none →
      createUser users b now = (users, .error ⟨"Name and email are required", 400⟩)) ∧
    (∀ (ps : List Product) (b : Body),
      b.name = none ∨ b.price = JSVal.undef ∨ b.category = none ∨ b.stock = JSVal.undef →
      createProduct ps b = (ps, .error ⟨"All fields are required", 400⟩)) := by
  constructor
  · intro users b now hmiss
    unfold createUser
    have : (!(strTruthy b.name) || !(strTruthy b.email)) = true := by
      rcases hmiss with h | h <;> simp [h, strTruthy]
    rw [if_pos this]
  · intro ps b hmiss
    unfold createProduct
    have : (!(strTruthy b.name) || !(b.price.truthy) || !(strTruthy b.category)
        || decide (b.stock = JSVal.undef)) = true := by
      rcases hmiss with h | h | h | h <;> simp [h, strTruthy, JSVal.truthy]
    rw [if_pos this]

/-- C4 witness: a user create without email and a product create without
stock are both rejected with the fixed message and leave the seed stores
untouched. -/
theorem c4_witness :
    createUser seedUsers { name := some "A" } 3
      = (seedUsers, .error ⟨"Name and email are required", 400⟩) ∧
    createProduct seedProducts { name := some "X", price := .num 5, category := some "C" }
      = (seedProducts, .error ⟨"All fields are required", 400⟩) :=
  ⟨c4_create_missing_field_rejected.1 seedUsers { name := some "A" } 3 (Or.inr rfl),
   c4_create_missing_field_rejected.2 seedProducts
     { name := some "X", price := .num 5, category := some "C" }
     (Or.inr (Or.inr (Or.inr rfl)))⟩

-- ========== CLAIM C5 ==========

/-- The category criterion of the product list filter: no constraint when
the parameter is absent or empty (falsy), otherwise a case-insensitive
match. -/
def categoryMatches (q : ProductQuery) (p : Product) : Bool :=
  match q.category with
  | none => true
  | some c => if c == "" then true else jsToLower p.category == jsToLower c

/-- The inclusive lower price bound: no constraint when absent or empty. -/
def minPriceOK (q : ProductQuery) (p : Product) : Bool :=
  match q.minPrice with
  | none => true
  | some s => if s == "" then true else decide (strToNumber s ≤ p.price)

/-- The inclusive upper price bound: no constraint when absent or empty. -/
def maxPriceOK (q : ProductQuery) (p : Product) : Bool :=
  match q.maxPrice with
  | none => true
  | some s => if s == "" then true else decide (p.price ≤ strToNumber s)

theorem condFilter {α : Type} (c : Bool) (l : List α) (f : α → Bool) :
    (if c = true then l.filter f else l) = l.filter (fun a => !c || f a) := by
  cases c <;> simp

theorem categoryMatches_eq (q : ProductQuery) (p : Product) :
    (!(strTruthy q.category) || (jsToLower p.category == jsToLower (q.category.getD "")))
      = categoryMatches q p := by
  cases hc : q.category with
  | none => simp [categoryMatches, strTruthy, hc]
  | some c =>
    by_cases he : c = ""
    · simp [categoryMatches, strTruthy, hc, he]
    · simp [categoryMatches, strTruthy, hc, he]

theorem minPriceOK_eq (q : ProductQuery) (p : Product) :
    (!(strTruthy q.minPrice) || decide (strToNumber (q.minPrice.getD "") ≤ p.price))
      = minPriceOK q p := by
  cases hc : q.minPrice with
  | none => simp [minPriceOK, strTruthy, hc]
  | some s =>
    by_cases he : s = ""
    · simp [minPriceOK, strTruthy, hc, he]
    · simp [minPriceOK, strTruthy, hc, he]

theorem maxPriceOK_eq (q : ProductQuery) (p : Product) :
    (!(strTruthy q.maxPrice) || decide (p.price ≤ strToNumber (q.maxPrice.getD "")))
      = maxPriceOK q p := by
  cases hc : q.maxPrice with
  | none => simp [maxPriceOK, strTruthy, hc]
  | some s =>
    by_cases he : s = ""
    · simp [maxPriceOK, strTruthy, hc, he]
    · simp [maxPriceOK, strTruthy, hc, he]

/-- C5: the product List filter keeps exactly the products satisfying the
conjunction of the three criteria — case-insensitive category match,
inclusive lower and upper price bounds — each imposing no constraint when
its parameter is absent; with no filters the whole collection comes back in
insertion order; the route always answers 200 with the filtered list and
its count; and on the seeded products, minPrice 100 and maxPrice 500 select
exactly Gaming Mouse (150) and Mechanical Keyboard (400), count 2. -/
theorem c5_list_products_filter :
    (∀ (ps : List Product) (q : ProductQuery),
      listProducts ps q
        = ps.filter (fun p => categoryMatches q p && minPriceOK q p && maxPriceOK q p)) ∧
    (∀ (ps : List Product) (q : ProductQuery) (p : Product),
      p ∈ listProducts ps q ↔
        p ∈ ps ∧ (categoryMatches q p ∧ minPriceOK q p ∧ maxPriceOK q p)) ∧
    (∀ ps : List Product, listProducts ps {} = ps) ∧
    (∀ (users : List User) (ps : List Product) (q : ProductQuery)
       (now uptime : Nat) (dev : Bool),
      dispatch { method := .get, path := "/api/products", query := q } users ps now uptime dev
        = (.productsList 200 (listProducts ps q).length (listProducts ps q), users, ps)) ∧
    (listProducts seedProducts { minPrice := some "100", maxPrice := some "500" }
        = [ { id := "2", name := "Gaming Mouse", price := 150,
              category := "Peripherals", stock := 50 },
            { id := "3", name := "Mechanical Keyboard", price := 400,
              category := "Peripherals", stock := 30 } ] ∧
      (listProducts seedProducts { minPrice := some "100", maxPrice := some "500" }).length
        = 2) := by
  have hmain : ∀ (ps : List Product) (q : ProductQuery),
      listProducts ps q
        = ps.filter (fun p => categoryMatches q p && minPriceOK q p && maxPriceOK q p) := by
    intro ps q
    show (if strTruthy q.maxPrice = true then _ else _) = _
    rw [condFilter, condFilter, condFilter, List.filter_filter, List.filter_filter]
    apply List.filter_congr
    intro x _
    rw [categoryMatches_eq, minPriceOK_eq, maxPriceOK_eq]
    cases categoryMatches q x <;> cases minPriceOK q x <;> cases maxPriceOK q x <;> rfl
  refine ⟨hmain, ?_, ?_, ?_, ⟨rfl, rfl⟩⟩
  · intro ps q p
    rw [hmain, List.mem_filter]
    simp [and_assoc]
  · intro ps
    rw [hmain]
    apply List.filter_eq_self.mpr
    intro p _
    simp [categoryMatches, minPriceOK, maxPriceOK]
  · intro users ps q now uptime dev
    rfl

-- ========== CLAIM C6 ==========

/-- C6 counterexample: a product payload in which every required field is
present and not undefined — name "X", category "C", stock 5, and the price
the number 0 — is still rejected with the 400 ValidationError, because the
source checks `price` with truthiness, not with an is-undefined test.  So
presence plus non-undefined is not sufficient for success as claimed. -/
theorem c6_counterexample :
    (JSVal.num 0 ≠ JSVal.undef) ∧
    createProduct seedProducts
        { name := some "X", price := .num 0, category := some "C", stock := .num 5 }
      = (seedProducts, .error ⟨"All fields are required", 400⟩) :=
  ⟨by decide, rfl⟩

/-- C6 (amended): presence-style validation is sufficient for Product
Create provided the price is additionally truthy (in particular nonzero
when a number): with name and category present and non-empty, price present
and truthy, and stock merely not undefined, the create succeeds — and a
stock of the number zero does count as provided. -/
theorem c6_product_presence_validation :
    (∀ (ps : List Product) (b : Body) (nm c : String),
      b.name = some nm → nm ≠ "" → b.category = some c → c ≠ "" →
      b.price.truthy = true → b.stock ≠ JSVal.undef →
      ∃ p : Product, createProduct ps b = (ps ++ [p], .ok p)) ∧
    (∀ (ps : List Product) (nm c : String) (pr : Int),
      nm ≠ "" → c ≠ "" → pr ≠ 0 →
      ∃ p : Product,
        createProduct ps
            { name := some nm, price := .num pr, category := some c, stock := .num 0 }
          = (ps ++ [p], .ok p) ∧ p.stock = 0) := by
  have hmain : ∀ (ps : List Product) (b : Body) (nm c : String),
      b.name = some nm → nm ≠ "" → b.category = some c → c ≠ "" →
      b.price.truthy = true → b.stock ≠ JSVal.undef →
      ∃ p : Product, createProduct ps b = (ps ++ [p], .ok p) := by
    intro ps b nm c hn hne hc hce hp hs
    refine ⟨{ id := toString (ps.length + 1), name := b.name.getD "",
              price := jsToNumber b.price, category := b.category.getD "",
              stock := jsToNumber b.stock }, ?_⟩
    unfold createProduct
    rw [if_neg]
    simp [strTruthy, hn, hne, hc, hce, hp, hs]
  constructor
  · exact hmain
  · intro ps nm c pr hn hc hp
    obtain ⟨p, hcr⟩ := hmain ps
      { name := some nm, price := .num pr, category := some c, stock := .num 0 }
      nm c rfl hn rfl hc (by simp [JSVal.truthy, hp]) (by simp)
    refine ⟨p, hcr, ?_⟩
    obtain ⟨rfl, _⟩ := createProduct_ok_inv hcr
    simp [jsToNumber]

/-- C6 amended-claim witness: a concrete create with stock 0 succeeds. -/
theorem c6_witness :
    ∃ p : Product,
      createProduct seedProducts
          { name := some "X", price := .num 5, category := some "C", stock := .num 0 }
        = (seedProducts ++ [p], .ok p) ∧ p.stock = 0 :=
  c6_product_presence_validation.2 seedProducts "X" "C" 5
    (by decide) (by decide) (by decide)

-- ========== CLAIM C9 ==========

/-- C9 counterexample: the string "0" is truthy, so a payload with price
"0" passes validation, `Number ("0")` coerces it to the number 0, and a
product with price 0 is created — refuting the claim that no product with
price 0 can ever be created. -/
theorem c9_counterexample :
    (JSVal.str "0").truthy = true ∧
    createProduct seedProducts
        { name := some "X", price := .str "0", category := some "C", stock := .num 1 }
      = (seedProducts
           ++ [{ id := "4", name := "X", price := 0, category := "C", stock := 1 }],
         .ok { id := "4", name := "X", price := 0, category := "C", stock := 1 }) :=
  ⟨rfl, rfl⟩

/-- C9 (amended): a falsy price — undefined, the number 0, or the empty
string — always makes Product Create answer the 400 ValidationError, even
when the field was provided; nevertheless a product with price 0 can still
be created, because the truthy string "0" passes validation and is coerced
to the number 0. -/
theorem c9_falsy_price_rejected :
    (∀ (ps : List Product) (b : Body),
      b.price.truthy = false →
      createProduct ps b = (ps, .error ⟨"All fields are required", 400⟩)) ∧
    (∃ p : Product,
      createProduct seedProducts
          { name := some "X", price := .str "0", category := some "C", stock := .num 1 }
        = (seedProducts ++ [p], .ok p) ∧ p.price = 0) := by
  constructor
  · intro ps b hp
    unfold createProduct
    rw [if_pos]
    simp [hp]
  · exact ⟨_, rfl, rfl⟩

/-- C9 amended-claim witness: price given as the number 0 is rejected. -/
theorem c9_witness :
    createProduct seedProducts
        { name := some "X", price := .num 0, category := some "C", stock := .num 1 }
      = (seedProducts, .error ⟨"All fields are required", 400⟩) :=
  c9_falsy_price_rejected.1 seedProducts
    { name := some "X", price := .num 0, category := some "C", stock := .num 1 }
    (by decide)

-- ========== CLAIM C10 ==========

theorem strOr_empty (d : String) : strOr (some "") d = d := by
  simp [strOr]

theorem strOr_eq_empty {v : Option String} {d : String} (h : strOr v d = "") : d = "" := by
  cases v with
  | none => exact h
  | some s =>
    by_cases he : s = ""
    · simpa [strOr, he] using h
    · rw [strOr] at h
      rw [if_neg (by simpa using he)] at h
      exact absurd h he

/-- C10: in an update, a provided empty-string value for a string field
(user name/email, product name/category) is treated as absent — the prior
value is retained — and consequently an update can never set a string field
to the empty string unless it already was empty. -/
theorem c10_update_empty_string_is_absent :
    (∀ (users : List User) (id : String) (b : Body) (i : Nat) (u : User),
      users.findIdx? (fun x => x.id == id) = some i → users.get? i = some u →
      ∃ u2 : User, updateUser users id b = (users.set i u2, .ok u2) ∧
        (b.name = some "" → u2.name = u.name) ∧
        (b.email = some "" → u2.email = u.email) ∧
        (u2.name = "" → u.name = "") ∧
        (u2.email = "" → u.email = "")) ∧
    (∀ (ps : List Product) (id : String) (b : Body) (i : Nat) (p : Product),
      ps.findIdx? (fun x => x.id == id) = some i → ps.get? i = some p →
      ∃ p2 : Product, updateProduct ps id b = (ps.set i p2, .ok p2) ∧
        (b.name = some "" → p2.name = p.name) ∧
        (b.category = some "" → p2.category = p.category) ∧
        (p2.name = "" → p.name = "") ∧
        (p2.category = "" → p.category = "")) := by
  constructor
  · intro users id b i u hfi hg
    refine ⟨_, updateUser_found hfi hg, ?_, ?_, ?_, ?_⟩
    · intro hv; rw [hv]; exact strOr_empty u.name
    · intro hv; rw [hv]; exact strOr_empty u.email
    · exact fun h => strOr_eq_empty h
    · exact fun h => strOr_eq_empty h
  · intro ps id b i p hfi hg
    refine ⟨_, updateProduct_found hfi hg, ?_, ?_, ?_, ?_⟩
    · intro hv; rw [hv]; exact strOr_empty p.name
    · intro hv; rw [hv]; exact strOr_empty p.category
    · exact fun h => strOr_eq_empty h
    · exact fun h => strOr_eq_empty h

/-- C10 witness: updating user "1" with an empty name and product "1" with
an empty category retains the prior values. -/
theorem c10_witness :
    (∃ u2 : User, updateUser seedUsers "1" { name := some "" } = (seedUsers.set 0 u2, .ok u2) ∧
      ((some "" : Option String) = some "" → u2.name = "John Doe")) ∧
    (∃ p2 : Product,
      updateProduct seedProducts "1" { category := some "" } = (seedProducts.set 0 p2, .ok p2) ∧
      ((some "" : Option String) = some "" → p2.category = "Electronics")) := by
  constructor
  · obtain ⟨u2, h1, h2, _, _, _⟩ := c10_update_empty_string_is_absent.1 seedUsers "1"
      { name := some "" } 0
      { id := "1", name := "John Doe", email := "john@example.com", createdAt := 0 }
      (by decide) rfl
    exact ⟨u2, h1, h2⟩
  · obtain ⟨p2, h1, _, h3, _, _⟩ := c10_update_empty_string_is_absent.2 seedProducts "1"
      { category := some "" } 0
      { id := "1", name := "Laptop", price := 3500, category := "Electronics", stock := 10 }
      (by decide) rfl
    exact ⟨p2, h1, h3⟩

-- ========== CLAIM C7 ==========

theorem failWith_inv {dev : Bool} {e : AppError} {st : Nat} {body : ErrorEnvelope}
    (h : failWith dev e = .failure st body) :
    ∃ a : AppError, (st, body) = renderError dev a.toErrLike ∧
      body.status = st ∧ body.success = false := by
  refine ⟨e, ?_⟩
  simp only [failWith] at h
  injection h with h1 h2
  subst h1
  subst h2
  exact ⟨rfl, rfl, rfl⟩

/-- C7: the terminal error renderer is the only producer of failure
envelopes — every `.failure` response `dispatch` can emit is the rendering
of some handler-signalled AppError — and the rendered body always has the
shape success false / error message / status, with the body's status field
equal to the HTTP status of the response, defaulting to 500 when the error
value carries no usable status code. -/
theorem c7_terminal_error_renderer :
    (∀ (dev : Bool) (e : ErrLike),
      ∃ (sc : Nat) (msg : String),
        renderError dev e = (sc, { success := false, error := msg, status := sc, stack := dev }) ∧
        (e.statusCode = none ∨ e.statusCode = some 0 → sc = 500)) ∧
    (∀ (req : Req) (users : List User) (ps : List Product) (now uptime : Nat) (dev : Bool)
       (st : Nat) (body : ErrorEnvelope) (us2 : List User) (ps2 : List Product),
      dispatch req users ps now uptime dev = (.failure st body, us2, ps2) →
      ∃ a : AppError, (st, body) = renderError dev a.toErrLike ∧
        body.status = st ∧ body.success = false) := by
  constructor
  · intro dev e
    refine ⟨(renderError dev e).1, (renderError dev e).2.error, rfl, ?_⟩
    intro hsc
    rcases hsc with h | h <;> simp [renderError, h]
  · intro req users ps now uptime dev st body us2 ps2 h
    unfold dispatch at h
    repeat' split at h
    all_goals
      first
        | exact failWith_inv (congrArg Prod.fst h)
        | simp at h

/-- C7 witness: the failure envelope of `GET /api/users/99` on the seed
store is the rendering of an AppError, with matching body and HTTP status. -/
theorem c7_witness :
    ∃ a : AppError,
      ((404 : Nat), (⟨false, "User not found", 404, false⟩ : ErrorEnvelope))
          = renderError false a.toErrLike ∧
      (⟨false, "User not found", 404, false⟩ : ErrorEnvelope).status = 404 ∧
      (⟨false, "User not found", 404, false⟩ : ErrorEnvelope).success = false :=
  c7_terminal_error_renderer.2 { method := .get, path := "/api/users/99" }
    seedUsers seedProducts 0 0 false 404
    ⟨false, "User not found", 404, false⟩
    seedUsers seedProducts rfl

-- ========== CLAIM C8 ==========

/-- The route table shapes of src/server.ts: a method together with a
segment pattern matched by one of the registered handlers. -/
def routeMatched (m : Method) (segs : List String) : Bool :=
  match m, segs with
  | .get, ["api", "users"] => true
  | .get, ["api", "users", _] => true
  | .post, ["api", "users"] => true
  | .put, ["api", "users", _] => true
  | .del, ["api", "users", _] => true
  | .get, ["api", "products"] => true
  | .get, ["api", "products", _] => true
  | .post, ["api", "products"] => true
  | .put, ["api", "products", _] => true
  | .del, ["api", "products", _] => true
  | .get, [] => true
  | .get, ["health"] => true
  | _, _ => false

/-- C8: any request whose method and path match none of the registered
routes falls through to the catch-all, which answers 404 with a body
carrying the fixed message "Route not found" and the literal requested
path, leaves both collections untouched, and is a `routeNotFound` response
distinct from the terminal renderer's failure envelope. -/
theorem c8_unmatched_route_404 :
    ∀ (req : Req) (users : List User) (ps : List Product) (now uptime : Nat) (dev : Bool),
      routeMatched req.method (pathSegs req.path) = false →
      dispatch req users ps now uptime dev
        = (.routeNotFound 404
            { success := false, error := "Route not found", path := req.path },
           users, ps) := by
  intro req users ps now uptime dev hm
  unfold dispatch
  split <;> first | rfl | simp_all [routeMatched]

/-- C8 witness: an unknown path and a known path with a wrong method both
produce the catch-all 404 echoing the literal path. -/
theorem c8_witness :
    dispatch { method := .get, path := "/api/unknown" } seedUsers seedProducts 0 0 false
      = (.routeNotFound 404
          { success := false, error := "Route not found", path := "/api/unknown" },
         seedUsers, seedProducts) ∧
    dispatch { method := .del, path := "/api/users" } seedUsers seedProducts 0 0 false
      = (.routeNotFound 404
          { success := false, error := "Route not found", path := "/api/users" },
         seedUsers, seedProducts) :=
  ⟨c8_unmatched_route_404 { method := .get, path := "/api/unknown" }
      seedUsers seedProducts 0 0 false (by decide),
   c8_unmatched_route_404 { method := .del, path := "/api/users" }
      seedUsers seedProducts 0 0 false (by decide)⟩

end Server
